import Mathlib

/-!
Verification of the EVDI virtual-display module (`src/platform/linux/evdi.cpp`).

The development shallowly embeds the module's two cores:

* the pure EDID descriptor synthesis (`generate_dtd`, `generate_edid`),
  with bytes modelled as `Nat` values kept below 256 by the same masks the
  C++ applies (`& 0xFF` becomes `% 256`, nibble masks become `% 16`,
  right shifts of non-negative quantities become division by a power of
  two); the one signed intermediate, `h_sync_offset`, is modelled on `Int`
  with C++ truncating division (`Int.tdiv`) and two's-complement masking
  (`Int.emod`);

* the lifecycle operations (`evdi_prepare_stream`,
  `evdi_destroy_virtual_display`, `verify_evdi`), embedded as pure
  functions over an explicit environment `EvdiEnv` capturing the effectful
  collaborators (the sysfs support marker, the per-index device probe, the
  open/connect/disconnect/close library calls and their exception
  behaviour).  Each operation returns its result, the updated global
  state, and a trace of the external calls it performed, so that claims
  about "no second probe" or "the handle is closed" are statements about
  the trace.
-/

/-- The constant 128-byte base EDID template (`base_edid` in the source),
byte for byte.  The display-name block spells out the ASCII codes of the
character literals in the source. -/
def base_edid : List Nat :=
  [0x00, 0xFF, 0xFF, 0xFF, 0xFF, 0xFF, 0xFF, 0x00,
   0x10, 0xAC,
   0x00, 0x00,
   0x00, 0x00, 0x00, 0x00,
   0x01,
   0x1E,
   0x01, 0x04,
   0xA5,
   0x34, 0x20,
   0x78,
   0x3A,
   0xEE, 0x91, 0xA3, 0x54, 0x4C, 0x99, 0x26, 0x0F, 0x50, 0x54,
   0x00, 0x00, 0x00,
   0x01, 0x01, 0x01, 0x01, 0x01, 0x01, 0x01, 0x01,
   0x01, 0x01, 0x01, 0x01, 0x01, 0x01, 0x01, 0x01,
   0x02, 0x3A, 0x80, 0x18, 0x71, 0x38, 0x2D, 0x40,
   0x58, 0x2C, 0x45, 0x00, 0x09, 0x25, 0x21, 0x00,
   0x00, 0x1E,
   0x00, 0x00, 0x00, 0xFC, 0x00,
   0x53, 0x75, 0x6E, 0x73, 0x68, 0x69, 0x6E, 0x65, 0x20, 0x56, 0x44, 0x0A, 0x20,
   0x00, 0x00, 0x00, 0xFD, 0x00,
   0x38, 0x4C, 0x1E, 0x53, 0x11, 0x00, 0x0A, 0x20, 0x20, 0x20, 0x20, 0x20, 0x20,
   0x00, 0x00, 0x00, 0x10, 0x00,
   0x00, 0x00, 0x00, 0x00, 0x00, 0x00, 0x00, 0x00, 0x00, 0x00, 0x00, 0x00, 0x00,
   0x00, 0x00]

/-- Storage of a C++ `int` expression into an `unsigned char`:
two's-complement reduction modulo 256, i.e. Euclidean remainder. -/
def byteOf (x : Int) : Nat := (x.emod 256).toNat

/-- The result of a C++ 32-bit `int` operation: two's-complement wrap
into `[-2^31, 2^31)` (signed overflow is undefined behaviour in C++;
the customary two's-complement wrap of real implementations is what is
modelled here).  `2147483648 = 2^31` and `4294967296 = 2^32`. -/
def int32 (x : Int) : Int := (x + 2147483648) % 4294967296 - 2147483648

/-- The C++ 32-bit `int` computation
`((width + h_blank) * (height + v_blank) * refresh_rate) / 1000` from
`generate_dtd`: each addition and multiplication wraps through `int32`,
and the division is the truncating `Int.tdiv` (its result is back in
range, so no wrap applies to the quotient). -/
def pixel_clock_khz_int32 (width h_blank height v_blank refresh_rate : Nat) : Int :=
  Int.tdiv (int32 (int32 (int32 ((width : Int) + (h_blank : Int))
    * int32 ((height : Int) + (v_blank : Int))) * (refresh_rate : Int))) 1000

/-- `generate_dtd`: the 18-byte Detailed Timing Descriptor.  Mirrors the
C++ byte for byte.  `& 0xFF` is `% 256`, `& 0x0F` is `% 16`, `>> 8` of a
non-negative value is `/ 256`, `<< 4` is `* 16`, and bitwise OR of
disjoint bit fields is addition.  `pixel_clock_khz` is a C++ 32-bit
`int`: each addition and multiplication of
`(width + h_blank) * (height + v_blank) * refresh_rate` wraps through
`int32`, and the divisions are the C++ truncating `Int.tdiv` (the final
value is in range, so no further wrap applies to the quotient).
`h_sync_offset = (h_blank - h_sync) / 2` can be negative (whenever
`width < 160`), so it also lives on `Int` with `Int.tdiv`; its
arithmetic right shift `>> 8` is floor division `Int.fdiv`, and `& 0x03`
on it is `Int.emod 4`. -/
def generate_dtd (width height refresh_rate : Nat) : List Nat :=
  let h_blank : Nat := width / 5
  let v_blank : Nat := 30
  let h_sync : Nat := 32
  let v_sync : Nat := 4
  let pixel_clock_khz : Int := pixel_clock_khz_int32 width h_blank height v_blank refresh_rate
  let h_sync_offset : Int := Int.tdiv ((h_blank : Int) - (h_sync : Int)) 2
  let v_sync_offset : Nat := 3
  [byteOf (Int.tdiv pixel_clock_khz 10),
   byteOf ((Int.tdiv pixel_clock_khz 10).fdiv 256),
   width % 256,
   h_blank % 256,
   width / 256 % 16 + h_blank / 256 % 16 * 16,
   height % 256,
   v_blank % 256,
   height / 256 % 16 + v_blank / 256 % 16 * 16,
   byteOf h_sync_offset,
   h_sync % 256,
   v_sync_offset % 16 * 16 + v_sync % 16,
   byteOf ((h_sync_offset.fdiv 256).emod 4
     + ((h_sync / 256 % 4 * 4 + v_sync_offset / 16 % 4 * 16 + v_sync / 16 % 4 * 64 : Nat) : Int)),
   0x20,
   0x34,
   0x00,
   0x00,
   0x00,
   0x1E]

/-- The EDID after splicing the custom DTD into bytes 54..71 of the
template, before the checksum is recomputed. -/
def edid_spliced (width height refresh_rate : Nat) : List Nat :=
  base_edid.take 54 ++ generate_dtd width height refresh_rate ++ base_edid.drop 72

/-- The first 127 bytes of the spliced EDID — everything the checksum
sums over (`for i < edid.size() - 1` in the source): template bytes
0..53, the 18 DTD bytes at 54..71, and template bytes 72..126.  The
lemma `edid_body_eq_take` below checks this against `edid_spliced`. -/
def edid_body (width height refresh_rate : Nat) : List Nat :=
  base_edid.take 54 ++ generate_dtd width height refresh_rate ++ (base_edid.drop 72).take 55

/-- `generate_edid`: splice the DTD into the template, then overwrite the
final byte with `(256 - checksum) & 0xFF` where `checksum` is the
wrapping `unsigned char` sum of bytes 0..126, i.e. their sum modulo 256.
`hdr_enabled` is accepted but — exactly as in the source, where it only
triggers a debug log — has no effect on the bytes produced. -/
def generate_edid (width height refresh_rate : Nat) (hdr_enabled : Bool) : List Nat :=
  edid_body width height refresh_rate
    ++ [(256 - (edid_body width height refresh_rate).sum % 256) % 256]

/-- Decoding of the preferred-timing block, following the spec's byte
layout in reverse: width is byte 2 of the block (EDID byte 56) plus the
low nibble of byte 4 (EDID byte 58) shifted up 8 bits. -/
def decode_width (edid : List Nat) : Nat :=
  edid.getD 56 0 + edid.getD 58 0 % 16 * 256

/-- Decoding of the height from the preferred-timing block: byte 5 of the
block (EDID byte 59) plus the low nibble of byte 7 (EDID byte 61)
shifted up 8 bits. -/
def decode_height (edid : List Nat) : Nat :=
  edid.getD 59 0 + edid.getD 61 0 % 16 * 256

/-- Decoding of the pixel clock in kHz from the preferred-timing block:
bytes 0..1 of the block (EDID bytes 54..55), little-endian, are the clock
in 10 kHz units. -/
def decode_pixel_clock_khz (edid : List Nat) : Nat :=
  (edid.getD 54 0 + edid.getD 55 0 * 256) * 10

/-- The formula for the pixel clock in kHz used by `generate_dtd`:
`(width + h_blank) * (height + v_blank) * refresh_rate / 1000` with
`h_blank = width / 5` and `v_blank = 30`. -/
def pixel_clock_khz_of (width height refresh_rate : Nat) : Nat :=
  (width + width / 5) * (height + 30) * refresh_rate / 1000

/-- `evdi_device_status` from the EVDI library interface. -/
inductive evdi_device_status
  | AVAILABLE
  | UNRECOGNIZED
  | NOT_PRESENT
deriving DecidableEq

/-- Outcome of an `evdi_open(i)` call: it may throw, or return a handle,
where `returned none` stands for `EVDI_INVALID_HANDLE`. -/
inductive OpenOutcome
  | threw
  | returned (handle : Option Nat)
deriving DecidableEq

/-- The effectful environment `evdi_prepare_stream` and
`evdi_destroy_virtual_display` run against: the sysfs support marker
(`access("/sys/devices/evdi", F_OK)`), the probe `evdi_check_device`, the
open call, and whether `evdi_connect` / `evdi_disconnect` / `evdi_close`
throw. -/
structure EvdiEnv where
  sysfs_evdi_exists : Bool
  check_device : Nat → evdi_device_status
  open_device : Nat → OpenOutcome
  connect_throws : Bool
  disconnect_throws : Bool
  close_throws : Bool

/-- The global `evdi_state_t`: handle (`none` is `EVDI_INVALID_HANDLE`),
activity flag and the cached mode configuration, with the source's
initializers as defaults. -/
structure evdi_state_t where
  handle : Option Nat := none
  is_active : Bool := false
  width : Nat := 1920
  height : Nat := 1080
  refresh_rate : Nat := 60
  hdr_enabled : Bool := false
deriving DecidableEq

/-- The initial process-wide state: Inactive, invalid handle. -/
def evdi_state_init : evdi_state_t := {}

/-- The fields of `video::config_t` that `evdi_prepare_stream` reads. -/
structure config_t where
  width : Nat
  height : Nat
  framerate : Nat
  dynamicRange : Nat

/-- Trace of external calls an operation performs: the sysfs support
check, `evdi_check_device(i)`, `evdi_open(i)`, `evdi_connect`,
`evdi_close`, `evdi_disconnect`, and the KMS detection sleep. -/
inductive Effect
  | checkSupport
  | probe (i : Nat)
  | openDev (i : Nat)
  | connect
  | close
  | disconnect
  | sleep
deriving DecidableEq

/-- The scan loop body: starting at index `i` with `fuel` iterations left,
probe each index in ascending order and stop at the first `AVAILABLE`
(`break` in the source), recording every probe performed. -/
def scan_loop (check : Nat → evdi_device_status) : Nat → Nat → Option Nat × List Effect
  | _, 0 => (none, [])
  | i, fuel + 1 =>
    if check i = evdi_device_status.AVAILABLE then
      (some i, [Effect.probe i])
    else
      let rest := scan_loop check (i + 1) fuel
      (rest.1, Effect.probe i :: rest.2)

/-- The device scan of `evdi_prepare_stream`: `for (int i = 0; i < 16; i++)`
probing via `evdi_check_device`, selecting the first `AVAILABLE` index. -/
def find_device (check : Nat → evdi_device_status) : Option Nat × List Effect :=
  scan_loop check 0 16

/-- `evdi_prepare_stream`, step by step from the source: return `true`
immediately when already active; fail when the sysfs marker is missing;
scan for a device and fail when none is `AVAILABLE`; open it, failing (and
storing `EVDI_INVALID_HANDLE` when the open returned it) on error; store
the requested mode and the HDR flag; connect, and on a connect exception
close the handle, reset it to invalid and fail; otherwise mark active and
sleep for KMS detection.  Returns the boolean result, the updated global
state and the trace of external calls. -/
def evdi_prepare_stream (config : config_t) (env : EvdiEnv) (s : evdi_state_t) :
    Bool × evdi_state_t × List Effect :=
  if s.is_active then
    (true, s, [])
  else if env.sysfs_evdi_exists = false then
    (false, s, [Effect.checkSupport])
  else
    let scan := find_device env.check_device
    match scan.1 with
    | none => (false, s, Effect.checkSupport :: scan.2)
    | some idx =>
      match env.open_device idx with
      | OpenOutcome.threw =>
        (false, s, Effect.checkSupport :: scan.2 ++ [Effect.openDev idx])
      | OpenOutcome.returned none =>
        (false, { s with handle := none },
          Effect.checkSupport :: scan.2 ++ [Effect.openDev idx])
      | OpenOutcome.returned (some hdl) =>
        let s1 : evdi_state_t :=
          { handle := some hdl,
            is_active := s.is_active,
            width := config.width,
            height := config.height,
            refresh_rate := config.framerate,
            hdr_enabled := decide (0 < config.dynamicRange) }
        if env.connect_throws then
          (false, { s1 with handle := none },
            Effect.checkSupport :: scan.2 ++ [Effect.openDev idx, Effect.connect, Effect.close])
        else
          (true, { s1 with is_active := true },
            Effect.checkSupport :: scan.2 ++ [Effect.openDev idx, Effect.connect, Effect.sleep])

/-- `evdi_destroy_virtual_display`: a no-op when not active; otherwise,
when the handle is valid, attempt disconnect then close (an exception in
either is caught and swallowed, and when disconnect throws the close is
never reached), then unconditionally invalidate the handle and clear the
active flag.  The function returns no status to its caller. -/
def evdi_destroy_virtual_display (env : EvdiEnv) (s : evdi_state_t) :
    evdi_state_t × List Effect :=
  if s.is_active = false then
    (s, [])
  else
    match s.handle with
    | none => ({ s with is_active := false }, [])
    | some _ =>
      let effects :=
        if env.disconnect_throws then [Effect.disconnect]
        else [Effect.disconnect, Effect.close]
      ({ s with handle := none, is_active := false }, effects)

/-- `verify_evdi`: the source returns `true` unconditionally after
logging; it consults neither the filesystem nor any device. -/
def verify_evdi : Bool := true

/-- The invariant the global state satisfies at init and across every
operation: whenever the display is not active the handle is invalid. -/
def handleInv (s : evdi_state_t) : Prop :=
  s.is_active = false → s.handle = none

/-- The synthetic probe sequence from the spec's scan-strategy scenario:
index 0 `Unrecognized`, index 1 `NotPresent`, indices 2 and 3 `Available`,
everything past the sequence `NotPresent`. -/
def demo_probe : Nat → evdi_device_status := fun i =>
  [evdi_device_status.UNRECOGNIZED, evdi_device_status.NOT_PRESENT,
   evdi_device_status.AVAILABLE, evdi_device_status.AVAILABLE].getD i
    evdi_device_status.NOT_PRESENT

/-- A sample request: 1920x1080 at 60 Hz, SDR. -/
def demo_config : config_t :=
  { width := 1920, height := 1080, framerate := 60, dynamicRange := 0 }

/-- An environment whose sysfs support marker is absent. -/
def env_nosupport : EvdiEnv :=
  { sysfs_evdi_exists := false,
    check_device := fun _ => evdi_device_status.NOT_PRESENT,
    open_device := fun _ => OpenOutcome.threw,
    connect_throws := false,
    disconnect_throws := false,
    close_throws := false }

/-- A fully working environment: support loaded, device 0 available,
opens to handle 7, no call throws. -/
def env_ok : EvdiEnv :=
  { sysfs_evdi_exists := true,
    check_device := fun _ => evdi_device_status.AVAILABLE,
    open_device := fun _ => OpenOutcome.returned (some 7),
    connect_throws := false,
    disconnect_throws := false,
    close_throws := false }

/-- An environment where everything works up to `evdi_connect`, which
throws; `evdi_disconnect` also throws, for exercising teardown. -/
def env_connect_fails : EvdiEnv :=
  { sysfs_evdi_exists := true,
    check_device := fun _ => evdi_device_status.AVAILABLE,
    open_device := fun _ => OpenOutcome.returned (some 7),
    connect_throws := true,
    disconnect_throws := true,
    close_throws := false }

/-- A state mid-session: active with a valid handle. -/
def state_active : evdi_state_t :=
  { handle := some 7, is_active := true, width := 1920, height := 1080,
    refresh_rate := 60, hdr_enabled := false }

set_option maxRecDepth 100000

/-! ## Helper lemmas on the EDID bytes -/

/-- `edid_body` is indeed the first 127 bytes of the spliced EDID. -/
lemma edid_body_eq_take (w h r : Nat) :
    edid_body w h r = (edid_spliced w h r).take 127 := rfl

/-- `generate_edid` is the 127-byte body followed by the checksum byte. -/
lemma edid_eq_body_chk (w h r : Nat) (hdr : Bool) :
    generate_edid w h r hdr
      = edid_body w h r ++ [(256 - (edid_body w h r).sum % 256) % 256] := rfl

/-- The body has 127 bytes. -/
lemma edid_body_length (w h r : Nat) : (edid_body w h r).length = 127 := rfl

/-- The first 127 bytes of the generated EDID are the body. -/
lemma edid_take_body (w h r : Nat) (hdr : Bool) :
    (generate_edid w h r hdr).take 127 = edid_body w h r := by
  rw [edid_eq_body_chk]
  exact List.take_left' (edid_body_length w h r)

/-- A 32-bit wrap is the identity on values already in range. -/
lemma int32_eq_self {x : Int} (h0 : 0 ≤ x) (h1 : x < 2147483648) : int32 x = x := by
  unfold int32
  omega

/-- When the pixel-clock product `(w + w/5) * (h + 30) * r` stays below
`2^31`, every partial result does too (each factor is at least 1), so the
wrapped 32-bit pixel clock computed by `generate_dtd` equals the exact
one. -/
lemma pixel_clock_khz_int32_eq (w h r : Nat) (hw : 0 < w) (hr : 0 < r)
    (hov : (w + w / 5) * (h + 30) * r < 2147483648) :
    pixel_clock_khz_int32 w (w / 5) h 30 r = ((pixel_clock_khz_of w h r : Nat) : Int) := by
  have hb1 : w + w / 5 < 2147483648 := by
    calc w + w / 5 = (w + w / 5) * 1 * 1 := by ring
      _ ≤ (w + w / 5) * (h + 30) * r := by gcongr <;> omega
      _ < 2147483648 := hov
  have hb2 : (w + w / 5) * (h + 30) < 2147483648 := by
    calc (w + w / 5) * (h + 30) = (w + w / 5) * (h + 30) * 1 := by ring
      _ ≤ (w + w / 5) * (h + 30) * r := by gcongr <;> omega
      _ < 2147483648 := hov
  have hb3 : h + 30 < 2147483648 := by
    calc h + 30 = 1 * (h + 30) := by ring
      _ ≤ (w + w / 5) * (h + 30) := by gcongr <;> omega
      _ < 2147483648 := hb2
  have c1 : (w : Int) + ((w / 5 : Nat) : Int) = ((w + w / 5 : Nat) : Int) := by
    push_cast; ring
  have c2 : (h : Int) + ((30 : Nat) : Int) = ((h + 30 : Nat) : Int) := by
    push_cast; ring
  have e1 : int32 ((w + w / 5 : Nat) : Int) = ((w + w / 5 : Nat) : Int) :=
    int32_eq_self (by positivity) (by exact_mod_cast hb1)
  have e2 : int32 ((h + 30 : Nat) : Int) = ((h + 30 : Nat) : Int) :=
    int32_eq_self (by positivity) (by exact_mod_cast hb3)
  have e3 : int32 (((w + w / 5) * (h + 30) : Nat) : Int)
      = (((w + w / 5) * (h + 30) : Nat) : Int) :=
    int32_eq_self (by positivity) (by exact_mod_cast hb2)
  have e4 : int32 (((w + w / 5) * (h + 30) * r : Nat) : Int)
      = (((w + w / 5) * (h + 30) * r : Nat) : Int) :=
    int32_eq_self (by positivity) (by exact_mod_cast hov)
  unfold pixel_clock_khz_int32
  rw [c1, c2, e1, e2, ← Nat.cast_mul, e3, ← Nat.cast_mul, e4]
  rfl

/-- EDID byte 54 (DTD byte 0): pixel clock in 10 kHz units, low byte —
on the no-overflow domain of the 32-bit pixel-clock computation. -/
lemma edid_byte54_of_bound (w h r : Nat) (hdr : Bool) (hw : 0 < w) (hr : 0 < r)
    (hov : (w + w / 5) * (h + 30) * r < 2147483648) :
    (generate_edid w h r hdr).getD 54 0 = pixel_clock_khz_of w h r / 10 % 256 := by
  have hstep : (generate_edid w h r hdr).get? 54
      = some (byteOf (Int.tdiv (pixel_clock_khz_int32 w (w / 5) h 30 r) 10)) := rfl
  have h2 : (generate_edid w h r hdr).getD 54 0
      = byteOf (Int.tdiv (pixel_clock_khz_int32 w (w / 5) h 30 r) 10) := by
    unfold List.getD
    rw [hstep, Option.getD_some]
  rw [h2, pixel_clock_khz_int32_eq w h r hw hr hov]
  rfl

/-- EDID byte 55 (DTD byte 1): pixel clock in 10 kHz units, high byte —
on the no-overflow domain of the 32-bit pixel-clock computation. -/
lemma edid_byte55_of_bound (w h r : Nat) (hdr : Bool) (hw : 0 < w) (hr : 0 < r)
    (hov : (w + w / 5) * (h + 30) * r < 2147483648) :
    (generate_edid w h r hdr).getD 55 0 = pixel_clock_khz_of w h r / 10 / 256 % 256 := by
  have hstep : (generate_edid w h r hdr).get? 55
      = some (byteOf ((Int.tdiv (pixel_clock_khz_int32 w (w / 5) h 30 r) 10).fdiv 256)) := rfl
  have h2 : (generate_edid w h r hdr).getD 55 0
      = byteOf ((Int.tdiv (pixel_clock_khz_int32 w (w / 5) h 30 r) 10).fdiv 256) := by
    unfold List.getD
    rw [hstep, Option.getD_some]
  rw [h2, pixel_clock_khz_int32_eq w h r hw hr hov, Int.fdiv_eq_ediv _ (by norm_num)]
  rfl

/-- EDID byte 56 (DTD byte 2): width, low 8 bits. -/
lemma edid_byte56 (w h r : Nat) (hdr : Bool) :
    (generate_edid w h r hdr).getD 56 0 = w % 256 := rfl

/-- EDID byte 58 (DTD byte 4): high nibble of width packed with high
nibble of the horizontal blanking. -/
lemma edid_byte58 (w h r : Nat) (hdr : Bool) :
    (generate_edid w h r hdr).getD 58 0 = w / 256 % 16 + w / 5 / 256 % 16 * 16 := rfl

/-- EDID byte 59 (DTD byte 5): height, low 8 bits. -/
lemma edid_byte59 (w h r : Nat) (hdr : Bool) :
    (generate_edid w h r hdr).getD 59 0 = h % 256 := rfl

/-- EDID byte 61 (DTD byte 7): high nibble of height packed with high
nibble of the vertical blanking. -/
lemma edid_byte61 (w h r : Nat) (hdr : Bool) :
    (generate_edid w h r hdr).getD 61 0 = h / 256 % 16 + 30 / 256 % 16 * 16 := rfl

/-! ## Helper lemmas on the lifecycle operations -/

/-- Whatever the environment does (including throwing disconnect/close),
teardown always leaves the active flag cleared. -/
lemma destroy_is_active_false (env : EvdiEnv) (s : evdi_state_t) :
    ((evdi_destroy_virtual_display env s).1).is_active = false := by
  by_cases hA : s.is_active = false
  · simp [evdi_destroy_virtual_display, hA]
  · cases hH : s.handle <;> simp [evdi_destroy_virtual_display, hA, hH]

/-- Teardown from a state satisfying the handle invariant leaves the
handle invalid. -/
lemma destroy_handle_none (env : EvdiEnv) (s : evdi_state_t) (hinv : handleInv s) :
    ((evdi_destroy_virtual_display env s).1).handle = none := by
  by_cases hA : s.is_active = false
  · simpa [evdi_destroy_virtual_display, hA] using hinv hA
  · cases hH : s.handle <;> simp [evdi_destroy_virtual_display, hA, hH]

/-- Teardown while not active is a complete no-op. -/
lemma destroy_noop (env : EvdiEnv) (s : evdi_state_t) (hA : s.is_active = false) :
    evdi_destroy_virtual_display env s = (s, []) := by
  simp [evdi_destroy_virtual_display, hA]

/-- Teardown preserves the handle invariant. -/
lemma destroy_preserves_inv (env : EvdiEnv) (s : evdi_state_t) (hinv : handleInv s) :
    handleInv (evdi_destroy_virtual_display env s).1 := by
  intro _
  exact destroy_handle_none env s hinv

/-- `evdi_prepare_stream` preserves the handle invariant in every branch:
each failure path either leaves the state untouched or stores an invalid
handle, and the success path sets the active flag. -/
lemma prepare_preserves_inv (config : config_t) (env : EvdiEnv) (s : evdi_state_t)
    (hinv : handleInv s) : handleInv (evdi_prepare_stream config env s).2.1 := by
  by_cases hA : s.is_active = true
  · simpa [evdi_prepare_stream, hA] using hinv
  · rw [Bool.not_eq_true] at hA
    by_cases hS : env.sysfs_evdi_exists = false
    · simpa [evdi_prepare_stream, hA, hS] using hinv
    · rw [Bool.not_eq_false] at hS
      cases hF : (find_device env.check_device).1 with
      | none => simpa [evdi_prepare_stream, hA, hS, hF] using hinv
      | some idx =>
        cases hO : env.open_device idx with
        | threw => simpa [evdi_prepare_stream, hA, hS, hF, hO] using hinv
        | returned hdl =>
          cases hdl with
          | none => intro _; simp [evdi_prepare_stream, hA, hS, hF, hO]
          | some hv =>
            by_cases hC : env.connect_throws = true
            · intro _; simp [evdi_prepare_stream, hA, hS, hF, hO, hC]
            · rw [Bool.not_eq_true] at hC
              intro hcontra
              simp [evdi_prepare_stream, hA, hS, hF, hO, hC] at hcontra

/-! ## Claim theorems -/

/-- C1: for every input with `width > 0`, `height > 0`, `refreshRateHz > 0`,
`generate_edid` returns exactly 128 bytes whose sum modulo 256 is 0, the
last byte being `(256 - (sum of bytes 0..126 mod 256)) mod 256`. -/
theorem generate_edid_length_and_checksum (w h r : Nat) (hdr : Bool)
    (hw : 0 < w) (hh : 0 < h) (hr : 0 < r) :
    (generate_edid w h r hdr).length = 128
    ∧ (generate_edid w h r hdr).sum % 256 = 0
    ∧ (generate_edid w h r hdr).getD 127 0
        = (256 - ((generate_edid w h r hdr).take 127).sum % 256) % 256 := by
  refine ⟨rfl, ?_, ?_⟩
  · rw [edid_eq_body_chk, List.sum_append]
    simp only [List.sum_cons, List.sum_nil]
    omega
  · rw [edid_take_body, edid_eq_body_chk,
      List.getD_append_right _ _ _ _ (by rw [edid_body_length])]
    rw [edid_body_length]
    rfl

/-- Witness for C1 at the concrete request 1920x1080@60 SDR. -/
theorem generate_edid_length_and_checksum_witness :
    (generate_edid 1920 1080 60 false).length = 128
    ∧ (generate_edid 1920 1080 60 false).sum % 256 = 0
    ∧ (generate_edid 1920 1080 60 false).getD 127 0
        = (256 - ((generate_edid 1920 1080 60 false).take 127).sum % 256) % 256 :=
  generate_edid_length_and_checksum 1920 1080 60 false (by decide) (by decide) (by decide)

/-- C2 counterexample: at the valid input 7680x4320@60 the product
`(7680 + 1536) * (4320 + 30) * 60 = 2405376000` overflows the 32-bit
`int` the source computes the pixel clock in, so byte 54 is 225 and not
the 153 the unbounded formula gives. -/
theorem edid_pixel_clock_overflow_counterexample :
    0 < 7680 ∧ 0 < 4320 ∧ 0 < 60
    ∧ (generate_edid 7680 4320 60 false).getD 54 0 = 225
    ∧ (7680 + 7680 / 5) * (4320 + 30) * 60 / 1000 / 10 % 256 = 153
    ∧ (generate_edid 7680 4320 60 false).getD 54 0
        ≠ (7680 + 7680 / 5) * (4320 + 30) * 60 / 1000 / 10 % 256 := by decide

/-- C2 (amended): for every input with `width > 0`, `height > 0`,
`refreshRateHz > 0` whose pixel-clock product
`(width + width/5) * (height + 30) * refreshRateHz` stays below `2^31`
(no 32-bit `int` overflow), bytes 54 and 55 of the generated EDID are the
little-endian encoding of
`((width + width/5) * (height + 30) * refreshRateHz / 1000) / 10`
truncated to 16 bits, with truncating integer division throughout; in
particular for the request 1920x1080@60 SDR they encode
`((1920+384)*(1080+30)*60/1000)/10`. -/
theorem edid_pixel_clock_bytes_bounded (w h r : Nat) (hdr : Bool)
    (hw : 0 < w) (hh : 0 < h) (hr : 0 < r)
    (hov : (w + w / 5) * (h + 30) * r < 2147483648) :
    (generate_edid w h r hdr).getD 54 0 = pixel_clock_khz_of w h r / 10 % 256
    ∧ (generate_edid w h r hdr).getD 55 0 = pixel_clock_khz_of w h r / 10 / 256 % 256
    ∧ (generate_edid w h r hdr).getD 54 0 + 256 * (generate_edid w h r hdr).getD 55 0
        = pixel_clock_khz_of w h r / 10 % 65536
    ∧ (generate_edid 1920 1080 60 false).getD 54 0
        = (1920 + 384) * (1080 + 30) * 60 / 1000 / 10 % 256
    ∧ (generate_edid 1920 1080 60 false).getD 55 0
        = (1920 + 384) * (1080 + 30) * 60 / 1000 / 10 / 256 % 256 := by
  refine ⟨edid_byte54_of_bound w h r hdr hw hr hov,
    edid_byte55_of_bound w h r hdr hw hr hov, ?_, by decide, by decide⟩
  rw [edid_byte54_of_bound w h r hdr hw hr hov, edid_byte55_of_bound w h r hdr hw hr hov]
  omega

/-- Witness for the amended C2 at the concrete request 1920x1080@60 SDR,
whose pixel-clock product 153446400 is within the 32-bit range. -/
theorem edid_pixel_clock_bytes_bounded_witness :
    (generate_edid 1920 1080 60 false).getD 54 0 = pixel_clock_khz_of 1920 1080 60 / 10 % 256
    ∧ (generate_edid 1920 1080 60 false).getD 55 0
        = pixel_clock_khz_of 1920 1080 60 / 10 / 256 % 256 :=
  ⟨(edid_pixel_clock_bytes_bounded 1920 1080 60 false (by decide) (by decide) (by decide)
      (by decide)).1,
   (edid_pixel_clock_bytes_bounded 1920 1080 60 false (by decide) (by decide) (by decide)
      (by decide)).2.1⟩

/-- C3 counterexample: at the valid input width 4096, height 1080,
refresh 60, decoding the preferred-timing block does not recover the
width — the 12-bit packing wraps 4096 to 0. -/
theorem decode_width_counterexample :
    0 < 4096 ∧ 0 < 1080 ∧ 0 < 60
    ∧ decode_width (generate_edid 4096 1080 60 false) = 0
    ∧ decode_width (generate_edid 4096 1080 60 false) ≠ 4096 := by decide

/-- C3 (amended): for inputs whose width and height fit the 12-bit DTD
fields and whose pixel clock in 10 kHz units fits 16 bits, decoding the
preferred-timing block recovers the width and the height exactly and a
pixel clock within 10 kHz (one coding unit) of the formula value. -/
theorem decode_preferred_timing_roundtrip (w h r : Nat) (hdr : Bool)
    (hw : 0 < w) (hwlt : w < 4096) (hh : 0 < h) (hhlt : h < 4096) (hr : 0 < r)
    (hpc : pixel_clock_khz_of w h r / 10 < 65536) :
    decode_width (generate_edid w h r hdr) = w
    ∧ decode_height (generate_edid w h r hdr) = h
    ∧ decode_pixel_clock_khz (generate_edid w h r hdr) = pixel_clock_khz_of w h r / 10 * 10
    ∧ pixel_clock_khz_of w h r - decode_pixel_clock_khz (generate_edid w h r hdr) < 10 := by
  have hov : (w + w / 5) * (h + 30) * r < 2147483648 := by
    have hpc2 := hpc
    simp only [pixel_clock_khz_of] at hpc2
    omega
  have hck : decode_pixel_clock_khz (generate_edid w h r hdr)
      = pixel_clock_khz_of w h r / 10 * 10 := by
    simp only [decode_pixel_clock_khz]
    rw [edid_byte54_of_bound w h r hdr hw hr hov, edid_byte55_of_bound w h r hdr hw hr hov]
    omega
  refine ⟨?_, ?_, hck, ?_⟩
  · simp only [decode_width]
    rw [edid_byte56, edid_byte58]
    omega
  · simp only [decode_height]
    rw [edid_byte59, edid_byte61]
    omega
  · rw [hck]
    omega

/-- Witness for the amended C3 at the concrete request 1920x1080@60 SDR. -/
theorem decode_preferred_timing_roundtrip_witness :
    decode_width (generate_edid 1920 1080 60 false) = 1920
    ∧ decode_height (generate_edid 1920 1080 60 false) = 1080 :=
  ⟨(decode_preferred_timing_roundtrip 1920 1080 60 false (by decide) (by decide)
      (by decide) (by decide) (by decide) (by decide)).1,
   (decode_preferred_timing_roundtrip 1920 1080 60 false (by decide) (by decide)
      (by decide) (by decide) (by decide) (by decide)).2.1⟩

/-- C4: the generated EDID is byte-for-byte independent of the
`hdrEnabled` input — no HDR metadata extension block is produced. -/
theorem generate_edid_hdr_independent (w h r : Nat) :
    generate_edid w h r true = generate_edid w h r false := rfl

/-- The scan loop starting at `i` with `fuel` probes left only reports an
index that is in range, probes `AVAILABLE`, and is preceded by no
`AVAILABLE` index at or after `i`. -/
lemma scan_loop_some_spec (check : Nat → evdi_device_status) :
    ∀ fuel i j, (scan_loop check i fuel).1 = some j →
      i ≤ j ∧ j < i + fuel ∧ check j = evdi_device_status.AVAILABLE
        ∧ ∀ k, i ≤ k → k < j → check k ≠ evdi_device_status.AVAILABLE := by
  intro fuel
  induction fuel with
  | zero => intro i j hj; simp [scan_loop] at hj
  | succ n ih =>
    intro i j hj
    by_cases hc : check i = evdi_device_status.AVAILABLE
    · simp [scan_loop, hc] at hj
      subst hj
      exact ⟨Nat.le_refl i, by omega, hc, fun k hk1 hk2 => by omega⟩
    · simp [scan_loop, hc] at hj
      obtain ⟨h1, h2, h3, h4⟩ := ih (i + 1) j hj
      refine ⟨by omega, by omega, h3, ?_⟩
      intro k hk1 hk2
      rcases Nat.eq_or_lt_of_le hk1 with he | hl
      · rw [← he]; exact hc
      · exact h4 k hl hk2

/-- When no index in the probed range is `AVAILABLE`, the scan loop finds
nothing. -/
lemma scan_loop_none (check : Nat → evdi_device_status) :
    ∀ fuel i, (∀ k, i ≤ k → k < i + fuel → check k ≠ evdi_device_status.AVAILABLE) →
      (scan_loop check i fuel).1 = none := by
  intro fuel
  induction fuel with
  | zero => intro i _; simp [scan_loop]
  | succ n ih =>
    intro i hno
    have hc : ¬ check i = evdi_device_status.AVAILABLE := hno i (Nat.le_refl i) (by omega)
    simp [scan_loop, hc]
    exact ih (i + 1) (fun k hk1 hk2 => hno k (by omega) (by omega))

/-- C5: calling `evdi_prepare_stream` while already active returns success
immediately, performs no external call at all (in particular no probe, no
open, no connect), and leaves the stored state — including the active
configuration and the handle — unchanged. -/
theorem prepare_stream_idempotent_when_active (config : config_t) (env : EvdiEnv)
    (s : evdi_state_t) (hA : s.is_active = true) :
    evdi_prepare_stream config env s = (true, s, []) := by
  simp [evdi_prepare_stream, hA]

/-- Witness for C5: a second create while active is a pure success. -/
theorem prepare_stream_idempotent_when_active_witness :
    evdi_prepare_stream demo_config env_ok state_active = (true, state_active, []) :=
  prepare_stream_idempotent_when_active demo_config env_ok state_active rfl

/-- C6: teardown is idempotent and total: it always clears the active
flag whatever the environment does (disconnect/close exceptions are
swallowed); from any state satisfying the handle invariant it leaves the
handle invalid; a second teardown right after a first one is a no-op that
stays Inactive; and the handle invariant holds initially and is preserved
by both create and destroy, so it holds in every reachable state. -/
theorem destroy_idempotent_and_total :
    (∀ env s, ((evdi_destroy_virtual_display env s).1).is_active = false)
    ∧ (∀ env s, handleInv s → ((evdi_destroy_virtual_display env s).1).handle = none)
    ∧ (∀ env1 env2 s,
        evdi_destroy_virtual_display env2 (evdi_destroy_virtual_display env1 s).1
          = ((evdi_destroy_virtual_display env1 s).1, []))
    ∧ handleInv evdi_state_init
    ∧ (∀ config env s, handleInv s → handleInv (evdi_prepare_stream config env s).2.1)
    ∧ (∀ env s, handleInv s → handleInv (evdi_destroy_virtual_display env s).1) := by
  refine ⟨destroy_is_active_false, destroy_handle_none, ?_, ?_, prepare_preserves_inv,
    destroy_preserves_inv⟩
  · intro env1 env2 s
    exact destroy_noop env2 _ (destroy_is_active_false env1 s)
  · intro _
    rfl

/-- Witness for C6: double teardown from an active state, under an
environment whose disconnect throws, ends Inactive with no handle. -/
theorem destroy_idempotent_and_total_witness :
    ((evdi_destroy_virtual_display env_connect_fails state_active).1).is_active = false
    ∧ ((evdi_destroy_virtual_display env_connect_fails state_active).1).handle = none
    ∧ evdi_destroy_virtual_display env_connect_fails
        (evdi_destroy_virtual_display env_connect_fails state_active).1
      = ((evdi_destroy_virtual_display env_connect_fails state_active).1, []) :=
  ⟨destroy_idempotent_and_total.1 env_connect_fails state_active,
   destroy_idempotent_and_total.2.1 env_connect_fails state_active
     (fun hcontra => absurd hcontra (by decide)),
   destroy_idempotent_and_total.2.2.1 env_connect_fails env_connect_fails state_active⟩

/-- C7: when the sysfs support marker is absent and no display is active,
`evdi_prepare_stream` fails having performed only the support check: no
device probe and no device open occur, and the state is unchanged (hence
still Inactive). -/
theorem prepare_fails_support_not_loaded (config : config_t) (env : EvdiEnv)
    (s : evdi_state_t) (hA : s.is_active = false) (hS : env.sysfs_evdi_exists = false) :
    evdi_prepare_stream config env s = (false, s, [Effect.checkSupport])
    ∧ (∀ i, ¬ Effect.probe i ∈ (evdi_prepare_stream config env s).2.2)
    ∧ (∀ i, ¬ Effect.openDev i ∈ (evdi_prepare_stream config env s).2.2) := by
  have h1 : evdi_prepare_stream config env s = (false, s, [Effect.checkSupport]) := by
    simp [evdi_prepare_stream, hA, hS]
  refine ⟨h1, ?_, ?_⟩ <;> intro i <;> rw [h1] <;> simp

/-- Witness for C7: from the initial state with the marker absent, create
fails and performs only the support check. -/
theorem prepare_fails_support_not_loaded_witness :
    evdi_prepare_stream demo_config env_nosupport evdi_state_init
      = (false, evdi_state_init, [Effect.checkSupport])
    ∧ ¬ Effect.probe 0 ∈ (evdi_prepare_stream demo_config env_nosupport evdi_state_init).2.2
    ∧ ¬ Effect.openDev 0
        ∈ (evdi_prepare_stream demo_config env_nosupport evdi_state_init).2.2 :=
  ⟨(prepare_fails_support_not_loaded demo_config env_nosupport evdi_state_init rfl rfl).1,
   (prepare_fails_support_not_loaded demo_config env_nosupport evdi_state_init rfl rfl).2.1 0,
   (prepare_fails_support_not_loaded demo_config env_nosupport evdi_state_init rfl rfl).2.2 0⟩

/-- C8: the device scan probes indices 0..15 in ascending order and
selects the first `AVAILABLE` one: any selected index is below 16, is
`AVAILABLE`, and no smaller index is `AVAILABLE`; on the synthetic probe
sequence Unrecognized, NotPresent, Available, Available it selects
index 2; and when no index below 16 is `AVAILABLE`, `evdi_prepare_stream`
fails. -/
theorem scan_selects_first_available :
    (∀ check j, (find_device check).1 = some j →
        j < 16 ∧ check j = evdi_device_status.AVAILABLE
          ∧ ∀ k, k < j → check k ≠ evdi_device_status.AVAILABLE)
    ∧ (find_device demo_probe).1 = some 2
    ∧ (∀ config env s, s.is_active = false → env.sysfs_evdi_exists = true →
        (∀ i, i < 16 → env.check_device i ≠ evdi_device_status.AVAILABLE) →
        (evdi_prepare_stream config env s).1 = false) := by
  refine ⟨?_, by decide, ?_⟩
  · intro check j hj
    obtain ⟨_, h2, h3, h4⟩ := scan_loop_some_spec check 16 0 j hj
    exact ⟨by omega, h3, fun k hk => h4 k (Nat.zero_le k) hk⟩
  · intro config env s hA hS hno
    have hfd : (find_device env.check_device).1 = none :=
      scan_loop_none env.check_device 16 0 (fun k _ hk2 => hno k (by omega))
    simp [evdi_prepare_stream, hA, hS, hfd]

/-- Witness for C8: the synthetic sequence selects index 2, which is
`AVAILABLE` while indices 0 and 1 are not. -/
theorem scan_selects_first_available_witness :
    (2 : Nat) < 16 ∧ demo_probe 2 = evdi_device_status.AVAILABLE :=
  ⟨(scan_selects_first_available.1 demo_probe 2 (by decide)).1,
   (scan_selects_first_available.1 demo_probe 2 (by decide)).2.1⟩

/-- C9: when `evdi_connect` fails after a handle was opened, create
reports failure, the handle is closed (a close appears in the trace) and
invalidated, and the state is back to Inactive. -/
theorem prepare_connect_failure_rollback (config : config_t) (env : EvdiEnv)
    (s : evdi_state_t) (idx hdl : Nat) (hA : s.is_active = false)
    (hS : env.sysfs_evdi_exists = true)
    (hF : (find_device env.check_device).1 = some idx)
    (hO : env.open_device idx = OpenOutcome.returned (some hdl))
    (hC : env.connect_throws = true) :
    (evdi_prepare_stream config env s).1 = false
    ∧ ((evdi_prepare_stream config env s).2.1).is_active = false
    ∧ ((evdi_prepare_stream config env s).2.1).handle = none
    ∧ Effect.close ∈ (evdi_prepare_stream config env s).2.2 := by
  simp [evdi_prepare_stream, hA, hS, hF, hO, hC]

/-- Witness for C9: connect failure in a concrete environment rolls back
to Inactive with the handle closed. -/
theorem prepare_connect_failure_rollback_witness :
    (evdi_prepare_stream demo_config env_connect_fails evdi_state_init).1 = false
    ∧ ((evdi_prepare_stream demo_config env_connect_fails evdi_state_init).2.1).is_active = false
    ∧ ((evdi_prepare_stream demo_config env_connect_fails evdi_state_init).2.1).handle = none
    ∧ Effect.close ∈ (evdi_prepare_stream demo_config env_connect_fails evdi_state_init).2.2 :=
  prepare_connect_failure_rollback demo_config env_connect_fails evdi_state_init 0 7
    rfl rfl (by decide) rfl rfl

/-- C10: `verify_evdi` returns `true` unconditionally — by definition it
consults neither the filesystem marker nor any device — while
`evdi_prepare_stream` in an environment without the support marker fails,
so a caller cannot learn from `verify_evdi` whether support is loaded. -/
theorem verify_evdi_unconditionally_true :
    verify_evdi = true
    ∧ (evdi_prepare_stream demo_config env_nosupport evdi_state_init).1 = false :=
  ⟨rfl, by decide⟩
